import Mathlib

/-!
Verification development for the activation-tracking chat workflow in
`src/main.py`.  The persistent JSON stores (`users.json`, `activations.json`)
are modelled as explicit lists threaded through each operation; timestamps
are opaque strings supplied by the caller (the code reads the wall clock).
Python truthiness tests (`if app:`, `if not user.get('chat_id')`, ...) are
modelled explicitly, and `str.split(sep)` is embedded as a recursive
splitter on the character list.  String case mapping uses Lean's
character-wise `Char.toLower`/`Char.toUpper` maps, which agree with Python on the ASCII
inputs admitted by the validators in the source.
-/

namespace EarnerBot

/-- Python `s.replace(" ", "")`: removal of every space character. -/
def stripSpaces (s : String) : String :=
  ⟨s.data.filter (fun c => !(c == ' '))⟩

/-- Python `s.lower()`: character-wise lowercasing (the inputs the bot
lowercases are ASCII, where `Char.toLower` agrees with Python). -/
def str_lower (s : String) : String :=
  ⟨s.data.map Char.toLower⟩

/-- Python `s.upper()`: character-wise uppercasing. -/
def str_upper (s : String) : String :=
  ⟨s.data.map Char.toUpper⟩

/-- Python `s.strip()`: removal of leading and trailing whitespace. -/
def py_strip (s : String) : String :=
  ⟨((s.data.dropWhile Char.isWhitespace).reverse.dropWhile Char.isWhitespace).reverse⟩

/-- One record of `activations.json` (see `write_activation` in the source:
fields `email`, `mobile`, `app`, `status`, `reason`, `timestamp`,
`submission_date`, plus the `message_id` added after the channel post). -/
structure Activation where
  email : String
  mobile : String
  app : String
  status : String
  reason : String
  timestamp : String
  submission_date : String
  message_id : Option Nat
deriving Repr, DecidableEq

/-- One record of `users.json` (see `add_user` in the source). -/
structure User where
  email : String
  password : String
  name : String
  chat_id : Option Int
  created_at : String
deriving Repr, DecidableEq

/-- Python truthiness of a stored `chat_id`: `None` and `0` are falsy. -/
def truthy_chat : Option Int → Bool
  | none => false
  | some n => !(n == 0)

/-- Truthiness of an optional-string filter argument in `read_activations`:
`None` and the empty string are falsy, so those filters are skipped. -/
def filterActive : Option String → Bool
  | none => false
  | some s => !(s == "")

/-- Embedding of `read_activations(email, app, mobile)`: keeps a record
unless an active filter disagrees with it.  The `mobile` filter compares
against the space-stripped argument, as in the source. -/
def read_activations (store : List Activation)
    (email app mobile : Option String) : List Activation :=
  store.filter (fun act =>
    (!(filterActive email) || act.email == email.getD "")
    && (!(filterActive app) || act.app == app.getD "")
    && (!(filterActive mobile) || act.mobile == stripSpaces (mobile.getD "")))

/-- Embedding of `is_duplicate(app, mobile)`: any activation for `app`
whose space-stripped mobile matches and whose status is pending/approved. -/
def is_duplicate (store : List Activation) (app mobile : String) : Bool :=
  (read_activations store none (some app) none).any (fun act =>
    act.mobile == stripSpaces mobile
    && (act.status == "pending" || act.status == "approved"))

/-- The record appended by `write_activation` (both callers use the
defaults `status="pending"`, `reason="pending"`). -/
def pending_activation (email app mobile now subDate : String) : Activation :=
  { email := email, mobile := stripSpaces mobile, app := app,
    status := "pending", reason := "pending",
    timestamp := now, submission_date := subDate, message_id := none }

/-- Embedding of `write_activation(email, app, mobile)`: append a fresh
pending record. -/
def write_activation (store : List Activation)
    (email app mobile now subDate : String) : List Activation :=
  store ++ [pending_activation email app mobile now subDate]

/-- The match condition of the loop in `update_activation`. -/
def activation_matches (email app mobile : String) (act : Activation) : Bool :=
  act.email == email && act.app == app && act.mobile == stripSpaces mobile

/-- The field mutation performed by `update_activation` on the record it
finds. -/
def resolve_record (status reason now : String) (act : Activation) : Activation :=
  { act with status := status, reason := reason, timestamp := now }

/-- Embedding of the loop body of `update_activation`: mutate the first
matching record and stop (`break`); report whether anything was updated. -/
def update_activation_list (email app mobile status reason now : String) :
    List Activation → List Activation × Bool
  | [] => ([], false)
  | act :: rest =>
    if activation_matches email app mobile act then
      (resolve_record status reason now act :: rest, true)
    else
      let r := update_activation_list email app mobile status reason now rest
      (act :: r.1, r.2)

/-- Embedding of `update_activation(email, app, mobile, status, reason)`.
The Python default for `reason` is `"0"`; callers that rely on the default
pass `"0"` explicitly here. -/
def update_activation (store : List Activation)
    (email app mobile status reason now : String) : List Activation × Bool :=
  update_activation_list email app mobile status reason now store

/-- The fixed `REJECTION_REASONS` catalog of the source. -/
def REJECTION_REASONS : List (String × String) := [
  ("77", "Incorrect Proof - Video/screenshot is incorrect, send correct recording showing process"),
  ("78", "Improper Activation - Activation not done properly, send correct video"),
  ("79", "Fraud Detected - Fraud detected, account not showing"),
  ("80", "Wrong Device - Activation not done on user\x27s device"),
  ("81", "Late Submission - Activation completed after deadline"),
  ("nt", "Non Trade Approved")]

/-- Python `REJECTION_REASONS.get(code, dflt)`. -/
def reasons_get (code dflt : String) : String :=
  match REJECTION_REASONS.find? (fun p => p.1 == code) with
  | some p => p.2
  | none => dflt

/-- Reason rendering in `activation_status`:
`REJECTION_REASONS.get(act['reason'], act['reason'])` — unknown codes pass
through as their literal text. -/
def status_reason_text (code : String) : String :=
  reasons_get code code

/-- Reason rendering in `process_rejection`:
`REJECTION_REASONS.get(reason_id, "Unknown reason")`. -/
def rejection_reason_text (code : String) : String :=
  reasons_get code "Unknown reason"

/-- The status chosen by `process_rejection`: `"approved"` exactly for the
`angelone` app together with the `nt` reason code, else `"rejected"`. -/
def rejection_status (app reason_id : String) : String :=
  if app == "angelone" && reason_id == "nt" then "approved" else "rejected"

/-- Ledger-visible outcome of the `process_rejection` handler. -/
structure RejectionOutcome where
  store : List Activation
  updated : Bool
  status : String
  reasonText : String
deriving Repr, DecidableEq

/-- Embedding of the ledger part of `process_rejection`: resolve the reason
text, pick the status, and run `update_activation` with the reason code. -/
def process_rejection (store : List Activation)
    (email app mobile reason_id now : String) : RejectionOutcome :=
  let r := update_activation store email app mobile
    (rejection_status app reason_id) reason_id now
  { store := r.1, updated := r.2,
    status := rejection_status app reason_id,
    reasonText := rejection_reason_text reason_id }

/-- The operator-facing text built by `admin_approve` (rendered whether or
not the update found a record). -/
def approve_message (email app mobile : String) : String :=
  "✅ *Approved Activation*\n\n📲 *App:* " ++ str_upper app
    ++ "\n📧 *Email:* `" ++ email ++ "`\n📱 *Mobile:* `" ++ mobile ++ "`"

/-- Outcome of the `admin_approve` handler: the resulting store, the
(ignored) update flag, and the text shown to the operator. -/
structure AdminApproveOutcome where
  store : List Activation
  updated : Bool
  operatorText : String
deriving Repr, DecidableEq

/-- Embedding of `admin_approve`: calls `update_activation` with status
`"approved"` and the Python default reason `"0"`, ignores the returned
flag, and always edits the operator message to the approval text. -/
def admin_approve (store : List Activation)
    (email app mobile now : String) : AdminApproveOutcome :=
  let r := update_activation store email app mobile "approved" "0" now
  { store := r.1, updated := r.2,
    operatorText := approve_message email app mobile }

/-- The in-place `chat_id` merge loop inside `add_user`: the first stored
user whose lowercased email matches, whose `chat_id` is falsy, and with a
truthy `chat_id` argument gets the new `chat_id`; `none` when no such user
exists (the loop falls through to `return False, "User already exists"`). -/
def add_user_update (email : String) (chat_id : Option Int) :
    List User → Option (List User)
  | [] => none
  | u :: rest =>
    if str_lower u.email == str_lower email
        && !(truthy_chat u.chat_id) && truthy_chat chat_id then
      some ({ u with chat_id := chat_id } :: rest)
    else
      match add_user_update email chat_id rest with
      | some rest_upd => some (u :: rest_upd)
      | none => none

/-- Embedding of `add_user(email, password, name, chat_id)`: result store
plus the `(bool, message)` pair returned by the source. -/
def add_user (store : List User) (email password name : String)
    (chat_id : Option Int) (now : String) : List User × Bool × String :=
  if store.any (fun u => str_lower u.email == str_lower email) then
    match add_user_update email chat_id store with
    | some upd => (upd, true, "User chat_id updated")
    | none => (store, false, "User already exists")
  else
    (store ++ [{ email := str_lower email, password := password, name := name,
                 chat_id := chat_id, created_at := now }], true, "User added successfully")

/-- Lookup in the dict built by `read_emails` (a Python dict comprehension
keyed on the stored email: a later record overwrites an earlier one, hence
the search over the reversed list). -/
def read_emails_lookup (store : List User) (email : String) : Option User :=
  store.reverse.find? (fun u => u.email == email)

/-- The binding loop in `password_input`: the first stored user whose email
equals the session email (exactly) gets the current chat id. -/
def bind_chat_id (email : String) (chat_id : Int) : List User → List User
  | [] => []
  | u :: rest =>
    if u.email == email then { u with chat_id := some chat_id } :: rest
    else u :: bind_chat_id email chat_id rest

/-- Embedding of `password_input`: `email` is the session email stored by
`email_input` (already trimmed and lowercased).  Returns whether the login
succeeded together with the resulting user store; on success, a falsy
`chat_id` of the matched user is replaced by the current chat id. -/
def password_input (store : List User) (email password : String)
    (chat_id : Int) : Bool × List User :=
  match read_emails_lookup store email with
  | some u =>
    if u.password == password then
      if truthy_chat u.chat_id then (true, store)
      else (true, bind_chat_id email chat_id store)
    else (false, store)
  | none => (false, store)

/-- Characters admitted before the `@` by the email regex
`[a-zA-Z0-9._%+-]`. -/
def isEmailLocalChar (c : Char) : Bool :=
  c.isAlpha || c.isDigit || c == '.' || c == '_' || c == '%' || c == '+' || c == '-'

/-- Characters admitted in the domain by the email regex `[a-zA-Z0-9.-]`. -/
def isEmailDomainChar (c : Char) : Bool :=
  c.isAlpha || c.isDigit || c == '.' || c == '-'

/-- Auxiliary splitter: Python `str.split(sep)` for a single-character
separator, on the character list, with an accumulator for the current
segment. -/
def splitCharAux (sep : Char) : List Char → List Char → List (List Char)
  | [], acc => [acc.reverse]
  | c :: cs, acc =>
    if c == sep then acc.reverse :: splitCharAux sep cs []
    else splitCharAux sep cs (c :: acc)

/-- Python `s.split(sep)` for a single-character separator. -/
def split_on_char (sep : Char) (s : String) : List String :=
  (splitCharAux sep s.data []).map (fun l => ⟨l⟩)

/-- Embedding of the anchored email regex of `email_input`:
`^[a-zA-Z0-9._%+-]+@[a-zA-Z0-9.-]+\.[a-zA-Z]{2,}$`.  A match exists exactly
when the string has a single `@`, a nonempty local part over the local
class, a domain over the domain class, and the segment after the last dot
of the domain is purely alphabetic of length at least two with a nonempty
remainder before that dot. -/
def valid_email (s : String) : Bool :=
  match split_on_char '@' s with
  | [loc, dom] =>
    !(loc == "") && loc.data.all isEmailLocalChar
      && dom.data.all isEmailDomainChar
      && (let ps := split_on_char '.' dom
          decide (2 ≤ ps.length)
            && decide (2 ≤ (ps.getLastD "").length)
            && (ps.getLastD "").data.all Char.isAlpha
            && !((String.intercalate "." ps.dropLast) == ""))
  | _ => false

/-- Embedding of `email_input`: trim and lowercase the message text, then
accept it only when the regex matches; the accepted email becomes the
session email. -/
def email_input (text : String) : Option String :=
  let email := str_lower (py_strip text)
  if valid_email email then some email else none

/-- Callback data built for the approve/reject buttons:
`f"approve_{email}_{app}_{mobile}"` (the reject button differs only in the
leading tag, which the parser discards). -/
def approve_callback_data (email app mobile : String) : String :=
  "approve" ++ "_" ++ email ++ "_" ++ app ++ "_" ++ mobile

/-- Callback data built for a reason button:
`f"reason_{reason_id}_{email}_{app}_{mobile}"`. -/
def reason_callback_data (reason_id email app mobile : String) : String :=
  "reason" ++ "_" ++ reason_id ++ "_" ++ email ++ "_" ++ app ++ "_" ++ mobile

/-- Parsing in `admin_approve` / `admin_reject`:
`_, email, app, mobile = query.data.split('_')` — the unpacking demands
exactly four segments, any other shape raises and the handler aborts. -/
def parse_admin_callback (data : String) : Option (String × String × String) :=
  match split_on_char '_' data with
  | [_, email, app, mobile] => some (email, app, mobile)
  | _ => none

/-- Parsing in `process_rejection`: `parts = query.data.split('_')` indexed
at 1..4 — fewer than five segments raises, extra segments are ignored. -/
def parse_reason_callback (data : String) :
    Option (String × String × String × String) :=
  match split_on_char '_' data with
  | _ :: reason_id :: email :: app :: mobile :: _ =>
    some (reason_id, email, app, mobile)
  | _ => none

/-- Conversation state constants `EMAIL, ..., ADD_USER = range(6)` and
`ConversationHandler.END`. -/
def EMAIL : Int := 0

def PASSWORD : Int := 1

def MAIN_MENU : Int := 2

def APP_SELECTION : Int := 3

def ACTIVATION_PROOF : Int := 4

def ADD_USER : Int := 5

def CONV_END : Int := -1

/-- Apps accepting screenshots as proof (`SCREENSHOT_APPS`). -/
def SCREENSHOT_APPS : List String := ["mstock", "angelone"]

/-- Media attached to the submission message: a photo, a video, or
neither. -/
inductive MediaMsg
  | photo
  | video
  | neither
deriving Repr, DecidableEq

/-- The media validation of `process_activation_proof`: screenshot apps
accept photo or video, every other app accepts only video. -/
def media_accepted (app : String) (media : MediaMsg) : Bool :=
  if SCREENSHOT_APPS.contains app then
    match media with
    | .photo => true
    | .video => true
    | .neither => false
  else
    match media with
    | .video => true
    | _ => false

/-- The caption validation of `process_activation_proof`:
`re.fullmatch(r'\d{10}', mobile)` on the stripped caption. -/
def is_valid_mobile (s : String) : Bool :=
  s.length == 10 && s.data.all Char.isDigit

/-- How a proof submission ended. -/
inductive ProofResult
  | noApp
  | mediaRejected
  | captionMissing
  | invalidMobile
  | duplicate
  | sessionExpired
  | submitted
deriving Repr, DecidableEq

/-- Outcome of `process_activation_proof`: the resulting activation store,
how the submission ended, the next conversation state, and whether the
duplicate check (the first Ledger operation) was reached. -/
structure ProofOutcome where
  store : List Activation
  result : ProofResult
  nextState : Int
  dupChecked : Bool
deriving Repr, DecidableEq

/-- Embedding of `process_activation_proof`: missing app aborts to the
menu; then media validation, caption presence (Python falsiness: `None` or
empty), the ten-digit check on the stripped caption, the duplicate check,
the session-email check, and finally `write_activation`. -/
def process_activation_proof (store : List Activation) (app : String)
    (media : MediaMsg) (caption : Option String)
    (email now subDate : String) : ProofOutcome :=
  if app == "" then
    { store := store, result := .noApp, nextState := MAIN_MENU, dupChecked := false }
  else if !(media_accepted app media) then
    { store := store, result := .mediaRejected, nextState := ACTIVATION_PROOF,
      dupChecked := false }
  else
    match caption with
    | none =>
      { store := store, result := .captionMissing, nextState := ACTIVATION_PROOF,
        dupChecked := false }
    | some cap =>
      if cap == "" then
        { store := store, result := .captionMissing, nextState := ACTIVATION_PROOF,
          dupChecked := false }
      else
        let mobile := py_strip cap
        if !(is_valid_mobile mobile) then
          { store := store, result := .invalidMobile, nextState := ACTIVATION_PROOF,
            dupChecked := false }
        else if is_duplicate store app mobile then
          { store := store, result := .duplicate, nextState := MAIN_MENU,
            dupChecked := true }
        else if email == "" then
          { store := store, result := .sessionExpired, nextState := CONV_END,
            dupChecked := true }
        else
          { store := write_activation store email app mobile now subDate,
            result := .submitted, nextState := MAIN_MENU, dupChecked := true }

/-! ### Helper lemmas -/

theorem ual_length (e a m s r n : String) (l : List Activation) :
    (update_activation_list e a m s r n l).1.length = l.length := by
  induction l with
  | nil => rfl
  | cons act rest ih =>
    by_cases hact : activation_matches e a m act = true
    · simp [update_activation_list, hact]
    · simp [update_activation_list, hact, ih]

theorem ual_no_match (e a m s r n : String) (l : List Activation)
    (h : ∀ act ∈ l, activation_matches e a m act = false) :
    update_activation_list e a m s r n l = (l, false) := by
  induction l with
  | nil => rfl
  | cons act rest ih =>
    have hact : activation_matches e a m act = false := h act (List.mem_cons_self act rest)
    have hrest : update_activation_list e a m s r n rest = (rest, false) :=
      ih (fun x hx => h x (List.mem_cons_of_mem act hx))
    simp [update_activation_list, hact, hrest]

theorem ual_first_match (e a m s r n : String) (pre : List Activation)
    (act : Activation) (post : List Activation)
    (hpre : ∀ x ∈ pre, activation_matches e a m x = false)
    (hact : activation_matches e a m act = true) :
    update_activation_list e a m s r n (pre ++ act :: post)
      = (pre ++ resolve_record s r n act :: post, true) := by
  induction pre with
  | nil => simp [update_activation_list, hact]
  | cons x rest ih =>
    have hx : activation_matches e a m x = false := hpre x (List.mem_cons_self x rest)
    have hrest := ih (fun y hy => hpre y (List.mem_cons_of_mem x hy))
    simp [update_activation_list, hx, hrest]

theorem ual_updated_false_iff (e a m s r n : String) (l : List Activation) :
    (update_activation_list e a m s r n l).2 = false
      ↔ ∀ act ∈ l, activation_matches e a m act = false := by
  induction l with
  | nil => simp [update_activation_list]
  | cons act rest ih =>
    cases hact : activation_matches e a m act with
    | true => simp [update_activation_list, hact]
    | false => simp [update_activation_list, hact, ih]

theorem ual_updated_true (e a m s r n : String) (l : List Activation)
    (h : (update_activation_list e a m s r n l).2 = true) :
    ∃ pre act post, l = pre ++ act :: post
      ∧ (∀ x ∈ pre, activation_matches e a m x = false)
      ∧ activation_matches e a m act = true
      ∧ (update_activation_list e a m s r n l).1
          = pre ++ resolve_record s r n act :: post := by
  induction l with
  | nil => simp [update_activation_list] at h
  | cons act rest ih =>
    cases hact : activation_matches e a m act with
    | true =>
      exact ⟨[], act, rest, rfl, by simp, hact, by simp [update_activation_list, hact]⟩
    | false =>
      have h2 : (update_activation_list e a m s r n rest).2 = true := by
        simpa [update_activation_list, hact] using h
      obtain ⟨pre, a2, post, hl, hpre, hm, hres⟩ := ih h2
      refine ⟨act :: pre, a2, post, by simp [hl], ?_, hm, ?_⟩
      · intro x hx
        rcases List.mem_cons.mp hx with hx | hx
        · simpa [hx] using hact
        · exact hpre x hx
      · simp [update_activation_list, hact, hres]

theorem stripSpaces_eq_self_of_valid (mob : String)
    (h : is_valid_mobile mob = true) : stripSpaces mob = mob := by
  obtain ⟨data⟩ := mob
  unfold is_valid_mobile at h
  have hall : ∀ c ∈ data, c.isDigit = true := by
    intro c hc
    exact List.all_eq_true.mp (Bool.and_elim_right h) c hc
  unfold stripSpaces
  congr 1
  refine List.filter_eq_self.mpr (fun c hc => ?_)
  have hd := hall c hc
  cases hsp : c == ' ' with
  | false => rfl
  | true =>
    have : c = ' ' := beq_iff_eq.mp hsp
    rw [this] at hd
    exact absurd hd (by decide)

theorem is_duplicate_iff (store : List Activation) (app mobile : String)
    (h : app ≠ "") :
    is_duplicate store app mobile = true
      ↔ ∃ act ∈ store, act.app = app ∧ act.mobile = stripSpaces mobile
          ∧ (act.status = "pending" ∨ act.status = "approved") := by
  have happ : (app == "") = false := beq_eq_false_iff_ne.mpr h
  simp only [is_duplicate, read_activations, filterActive, happ,
    List.any_eq_true, List.mem_filter]
  constructor
  · rintro ⟨act, ⟨hmem, hfilter⟩, hbody⟩
    refine ⟨act, hmem, ?_, ?_, ?_⟩
    · have := Bool.and_elim_right (Bool.and_elim_left hfilter)
      simpa [beq_iff_eq] using this
    · exact beq_iff_eq.mp (Bool.and_elim_left hbody)
    · have := Bool.and_elim_right hbody
      rcases Bool.or_eq_true_iff.mp this with hs | hs
      · exact Or.inl (beq_iff_eq.mp hs)
      · exact Or.inr (beq_iff_eq.mp hs)
  · rintro ⟨act, hmem, happ2, hmob, hst⟩
    refine ⟨act, ⟨hmem, ?_⟩, ?_⟩
    · simp [happ2, hmob]
    · simp only [Bool.and_eq_true]
      refine ⟨beq_iff_eq.mpr hmob, ?_⟩
      rcases hst with hs | hs <;> simp [hs]

theorem splitCharAux_no_sep (sep : Char) (l acc : List Char)
    (h : ∀ c ∈ l, c ≠ sep) :
    splitCharAux sep l acc = [acc.reverse ++ l] := by
  induction l generalizing acc with
  | nil => simp [splitCharAux]
  | cons c cs ih =>
    have hc : (c == sep) = false :=
      beq_eq_false_iff_ne.mpr (h c (List.mem_cons_self c cs))
    have hrest := ih (c :: acc) (fun x hx => h x (List.mem_cons_of_mem c hx))
    simp [splitCharAux, hc, hrest]

theorem splitCharAux_append_sep (sep : Char) (l rest acc : List Char)
    (h : ∀ c ∈ l, c ≠ sep) :
    splitCharAux sep (l ++ sep :: rest) acc
      = (acc.reverse ++ l) :: splitCharAux sep rest [] := by
  induction l generalizing acc with
  | nil => simp [splitCharAux]
  | cons c cs ih =>
    have hc : (c == sep) = false :=
      beq_eq_false_iff_ne.mpr (h c (List.mem_cons_self c cs))
    have hrest := ih (c :: acc) (fun x hx => h x (List.mem_cons_of_mem c hx))
    simp [splitCharAux, hc, hrest]

theorem add_user_update_none (email : String) (cid : Option Int)
    (l : List User)
    (h : ∀ v ∈ l, str_lower v.email = str_lower email
          → truthy_chat v.chat_id = true ∨ truthy_chat cid = false) :
    add_user_update email cid l = none := by
  induction l with
  | nil => rfl
  | cons u rest ih =>
    have hcond : (str_lower u.email == str_lower email
        && !(truthy_chat u.chat_id) && truthy_chat cid) = false := by
      cases hm : str_lower u.email == str_lower email with
      | false => simp [hm]
      | true =>
        rcases h u (List.mem_cons_self u rest) (beq_iff_eq.mp hm) with hc | hc
        · simp [hc]
        · simp [hc]
    have hrest := ih (fun v hv => h v (List.mem_cons_of_mem u hv))
    simp only [add_user_update, hrest]
    rw [if_neg (by simp [hcond])]

theorem add_user_update_some (email : String) (cid : Option Int)
    (pre : List User) (u : User) (post : List User)
    (hpre : ∀ v ∈ pre, str_lower v.email ≠ str_lower email)
    (hu : str_lower u.email = str_lower email)
    (hchat : truthy_chat u.chat_id = false)
    (hcid : truthy_chat cid = true) :
    add_user_update email cid (pre ++ u :: post)
      = some (pre ++ { u with chat_id := cid } :: post) := by
  induction pre with
  | nil =>
    simp [add_user_update, hu, hchat, hcid]
  | cons v rest ih =>
    have hv : (str_lower v.email == str_lower email) = false :=
      beq_eq_false_iff_ne.mpr (hpre v (List.mem_cons_self v rest))
    have hrest := ih (fun x hx => hpre x (List.mem_cons_of_mem v hx))
    simp only [List.cons_append, add_user_update]
    rw [if_neg (by simp [hv])]
    simp only [List.append_eq]
    rw [hrest]

theorem bind_chat_id_first (email : String) (cid : Int)
    (pre : List User) (u : User) (post : List User)
    (hpre : ∀ v ∈ pre, v.email ≠ email) (hu : u.email = email) :
    bind_chat_id email cid (pre ++ u :: post)
      = pre ++ { u with chat_id := some cid } :: post := by
  induction pre with
  | nil => simp [bind_chat_id, hu]
  | cons v rest ih =>
    have hv : (v.email == email) = false :=
      beq_eq_false_iff_ne.mpr (hpre v (List.mem_cons_self v rest))
    have hrest := ih (fun x hx => hpre x (List.mem_cons_of_mem v hx))
    simp [bind_chat_id, hv, hrest]

theorem find?_eq_none_of_all (p : User → Bool) (l : List User)
    (h : ∀ v ∈ l, p v = false) : l.find? p = none := by
  induction l with
  | nil => rfl
  | cons v rest ih =>
    have hv := h v (List.mem_cons_self v rest)
    have hrest := ih (fun x hx => h x (List.mem_cons_of_mem v hx))
    simp [List.find?, hv, hrest]

theorem read_emails_lookup_decomp (pre : List User) (u : User)
    (post : List User) (email : String)
    (hpost : ∀ v ∈ post, v.email ≠ email)
    (hu : u.email = email) :
    read_emails_lookup (pre ++ u :: post) email = some u := by
  unfold read_emails_lookup
  rw [List.reverse_append, List.reverse_cons, List.append_assoc]
  have hpostrev : ∀ v ∈ post.reverse, (fun w => w.email == email) v = false := by
    intro v hv
    exact beq_eq_false_iff_ne.mpr (hpost v (List.mem_reverse.mp hv))
  rw [List.find?_append, find?_eq_none_of_all _ _ hpostrev]
  simp [List.find?, hu]

theorem read_emails_lookup_none (store : List User) (email : String)
    (h : ∀ v ∈ store, v.email ≠ email) :
    read_emails_lookup store email = none := by
  unfold read_emails_lookup
  exact find?_eq_none_of_all _ _
    (fun v hv => beq_eq_false_iff_ne.mpr (h v (List.mem_reverse.mp hv)))

/-! ### Claim theorems -/

/-- C4: resolving a decision with the designated conditional-approval
reason code `nt` (non-trade-approved) sets the activation status to
`approved` instead of `rejected` exactly when the app identifier is
`angelone`; for every other app identifier every reject decision, with any
reason code, sets status `rejected`.  The third conjunct confirms that
`process_rejection` stores exactly this status (with the reason code) on
the matching pending record. -/
theorem C4_nt_override (app reason_id : String) :
    (rejection_status app reason_id = "approved"
      ↔ app = "angelone" ∧ reason_id = "nt")
    ∧ (app ≠ "angelone" → rejection_status app reason_id = "rejected")
    ∧ (∀ email mobile t d now,
        (process_rejection [pending_activation email app mobile t d]
            email app mobile reason_id now).store
          = [{ pending_activation email app mobile t d with
                status := rejection_status app reason_id,
                reason := reason_id, timestamp := now }]) := by
  refine ⟨?_, ?_, ?_⟩
  · by_cases h1 : app = "angelone" <;> by_cases h2 : reason_id = "nt" <;>
      simp [rejection_status, h1, h2]
  · intro h1
    have : (app == "angelone") = false := beq_eq_false_iff_ne.mpr h1
    simp [rejection_status, this]
  · intro email mobile t d now
    simp [process_rejection, update_activation, update_activation_list,
      activation_matches, pending_activation, resolve_record]

/-- Witness for C4 at a concrete input: the app `upstox` is not `angelone`
and a reject with reason `nt` stays `rejected` there. -/
theorem C4_nt_override_witness :
    rejection_status "upstox" "nt" = "rejected" :=
  (C4_nt_override "upstox" "nt").2.1 (by decide)

/-- C8: a resolve (`update_activation`) never changes the number of
records: it returns the store unchanged with flag `false` exactly when no
record matches, and otherwise rewrites the first matching record in place,
never appending anything — also on records already `approved` or
`rejected`. -/
theorem C8_resolve_frame (store : List Activation)
    (email app mobile status reason now : String) :
    (update_activation store email app mobile status reason now).1.length
        = store.length
    ∧ ((update_activation store email app mobile status reason now).2 = false
        ↔ ∀ act ∈ store, activation_matches email app mobile act = false)
    ∧ ((update_activation store email app mobile status reason now).2 = false
        → (update_activation store email app mobile status reason now).1 = store)
    ∧ ((update_activation store email app mobile status reason now).2 = true
        → ∃ pre act post, store = pre ++ act :: post
            ∧ (∀ x ∈ pre, activation_matches email app mobile x = false)
            ∧ activation_matches email app mobile act = true
            ∧ (update_activation store email app mobile status reason now).1
                = pre ++ resolve_record status reason now act :: post) := by
  refine ⟨ual_length email app mobile status reason now store,
    ual_updated_false_iff email app mobile status reason now store, ?_, ?_⟩
  · intro h
    have hall := (ual_updated_false_iff email app mobile status reason now store).mp h
    exact congrArg Prod.fst (ual_no_match email app mobile status reason now store hall)
  · exact ual_updated_true email app mobile status reason now store

/-- Witness for C8 at a concrete input: a second resolve on an
already-approved record leaves the store at one record (overwritten in
place, not duplicated). -/
theorem C8_resolve_frame_witness :
    (update_activation
        [{ pending_activation "u@x.com" "upstox" "9876543210" "t1" "d1" with
            status := "approved", reason := "0", timestamp := "t2" }]
        "u@x.com" "upstox" "9876543210" "rejected" "77" "t3").1.length = 1 ∧
    (update_activation [] "u@x.com" "upstox" "9876543210" "approved" "0" "t").1
      = [] :=
  ⟨(C8_resolve_frame
      [{ pending_activation "u@x.com" "upstox" "9876543210" "t1" "d1" with
          status := "approved", reason := "0", timestamp := "t2" }]
      "u@x.com" "upstox" "9876543210" "rejected" "77" "t3").1,
   (C8_resolve_frame [] "u@x.com" "upstox" "9876543210" "approved" "0" "t").2.2.1
      (by decide)⟩

/-- C9 counterexample: the unknown reason code `zz` is not in the catalog,
yet the rendering in `process_rejection` maps it to the text
`"Unknown reason"` rather than passing it through as the literal `"zz"` —
so not every place the stored reason is rendered passes unknown codes
through literally. -/
theorem C9_counterexample :
    REJECTION_REASONS.find? (fun p => p.1 == "zz") = none
    ∧ rejection_reason_text "zz" = "Unknown reason"
    ∧ rejection_reason_text "zz" ≠ "zz" := by decide

/-- C9 (amended): every code in the fixed catalog renders to its catalog
text both in the user-facing status view and in the operator-facing
rejection flow; a code outside the catalog passes through as literal text
in the status view (`activation_status`), while the rejection flow
(`process_rejection`) renders it as `"Unknown reason"`. -/
theorem C9_reason_rendering (code : String) :
    match REJECTION_REASONS.find? (fun p => p.1 == code) with
    | some p => status_reason_text code = p.2 ∧ rejection_reason_text code = p.2
    | none => status_reason_text code = code
        ∧ rejection_reason_text code = "Unknown reason" := by
  unfold status_reason_text rejection_reason_text reasons_get
  cases h : REJECTION_REASONS.find? (fun p => p.1 == code) with
  | some p => simp [h]
  | none => simp [h]

/-- C1: for a nonempty app identifier, `is_duplicate` is true exactly when
the store holds a record for that app whose mobile equals the
space-stripped query and whose status is `pending` or `approved`; and a
proof submission for a pair whose first record is still pending fails as a
duplicate without appending a record. -/
theorem C1_duplicate_detection (store : List Activation) (app mobile : String)
    (h : app ≠ "") :
    (is_duplicate store app mobile = true
      ↔ ∃ act ∈ store, act.app = app ∧ act.mobile = stripSpaces mobile
          ∧ (act.status = "pending" ∨ act.status = "approved"))
    ∧ (∀ (media : MediaMsg) (cap email now subDate : String) (act : Activation),
        media_accepted app media = true
        → is_valid_mobile (py_strip cap) = true
        → act ∈ store → act.app = app → act.mobile = py_strip cap
        → act.status = "pending"
        → (process_activation_proof store app media (some cap)
              email now subDate).store = store
          ∧ (process_activation_proof store app media (some cap)
              email now subDate).result = ProofResult.duplicate) := by
  refine ⟨is_duplicate_iff store app mobile h, ?_⟩
  intro media cap email now subDate act hmedia hvalid hmem happ2 hmob hstatus
  have happ : (app == "") = false := beq_eq_false_iff_ne.mpr h
  have hm2 : (!(media_accepted app media)) = false := by simp [hmedia]
  have hcapne : (cap == "") = false := by
    apply beq_eq_false_iff_ne.mpr
    intro hcap
    subst hcap
    rw [show py_strip "" = "" from rfl] at hvalid
    exact absurd hvalid (by decide)
  have hv2 : (!(is_valid_mobile (py_strip cap))) = false := by simp [hvalid]
  have hdup : is_duplicate store app (py_strip cap) = true :=
    (is_duplicate_iff store app (py_strip cap) h).mpr
      ⟨act, hmem, happ2,
        hmob.trans (stripSpaces_eq_self_of_valid (py_strip cap) hvalid).symm,
        Or.inl hstatus⟩
  constructor <;>
    simp [process_activation_proof, happ, hm2, hcapne, hv2, hdup]

/-- Witness for C1 at a concrete input: with one pending `upstox` record
for mobile `9876543210`, the duplicate check fires and a second submission
for the same pair is rejected with the store unchanged. -/
theorem C1_duplicate_detection_witness :
    is_duplicate [pending_activation "u@x.com" "upstox" "9876543210" "t1" "d1"]
        "upstox" "9876543210" = true
    ∧ (process_activation_proof
        [pending_activation "u@x.com" "upstox" "9876543210" "t1" "d1"]
        "upstox" MediaMsg.video (some "9876543210") "v@x.com" "t2" "d2").store
      = [pending_activation "u@x.com" "upstox" "9876543210" "t1" "d1"]
    ∧ (process_activation_proof
        [pending_activation "u@x.com" "upstox" "9876543210" "t1" "d1"]
        "upstox" MediaMsg.video (some "9876543210") "v@x.com" "t2" "d2").result
      = ProofResult.duplicate := by
  have h := C1_duplicate_detection
    [pending_activation "u@x.com" "upstox" "9876543210" "t1" "d1"]
    "upstox" "9876543210" (by decide)
  have h2 := h.2 MediaMsg.video "9876543210" "v@x.com" "t2" "d2"
    (pending_activation "u@x.com" "upstox" "9876543210" "t1" "d1")
    (by decide) (by decide) (by decide) (by decide) (by decide) (by decide)
  exact ⟨h.1.mpr ⟨pending_activation "u@x.com" "upstox" "9876543210" "t1" "d1",
    by decide, by decide, by decide, Or.inl (by decide)⟩, h2.1, h2.2⟩

/-- C2 counterexample: submitting and then approving with no reason code
leaves the record `approved` but with reason `"0"` (the Python default of
`update_activation`), not the submission-time default `"pending"` — the
claim that the reason is unchanged is false. -/
theorem C2_counterexample :
    (admin_approve (write_activation [] "u@x.com" "upstox" "9876543210" "t1" "d1")
        "u@x.com" "upstox" "9876543210" "t2").store.map Activation.status
      = ["approved"]
    ∧ (admin_approve (write_activation [] "u@x.com" "upstox" "9876543210" "t1" "d1")
        "u@x.com" "upstox" "9876543210" "t2").store.map Activation.reason
      = ["0"]
    ∧ ("0" : String) ≠ "pending" := by decide

/-- C2 (amended): submit followed by an operator approval with no reason
code yields a stored record whose status is `approved` and whose reason is
overwritten with `"0"`, the `update_activation` default — not left at the
submission-time default `"pending"`. -/
theorem C2_submit_then_approve (store : List Activation)
    (email app mobile t1 d1 t2 : String)
    (h : ∀ act ∈ store, activation_matches email app mobile act = false) :
    admin_approve (write_activation store email app mobile t1 d1)
        email app mobile t2
      = { store := store ++ [{ pending_activation email app mobile t1 d1 with
            status := "approved", reason := "0", timestamp := t2 }],
          updated := true,
          operatorText := approve_message email app mobile } := by
  unfold admin_approve update_activation write_activation
  have hmatch : activation_matches email app mobile
      (pending_activation email app mobile t1 d1) = true := by
    simp [activation_matches, pending_activation]
  rw [ual_first_match email app mobile "approved" "0" t2 store
    (pending_activation email app mobile t1 d1) [] h hmatch]
  rfl

/-- Witness for C2 at a concrete input. -/
theorem C2_submit_then_approve_witness :
    admin_approve (write_activation [] "u@x.com" "upstox" "9876543210" "t1" "d1")
        "u@x.com" "upstox" "9876543210" "t2"
      = { store := [{ pending_activation "u@x.com" "upstox" "9876543210" "t1" "d1" with
            status := "approved", reason := "0", timestamp := "t2" }],
          updated := true,
          operatorText := approve_message "u@x.com" "upstox" "9876543210" } :=
  C2_submit_then_approve [] "u@x.com" "upstox" "9876543210" "t1" "d1" "t2"
    (by decide)

/-- C3 counterexample: approving a missing activation leaves the ledger
unchanged and the update flag false, yet the operator sees exactly the
same approval text as for a store where the record exists — the failure is
silently ignored, not surfaced. -/
theorem C3_counterexample :
    (admin_approve [] "u@x.com" "upstox" "9876543210" "t").updated = false
    ∧ (admin_approve [] "u@x.com" "upstox" "9876543210" "t").store = []
    ∧ (admin_approve [] "u@x.com" "upstox" "9876543210" "t").operatorText
        = (admin_approve
            [pending_activation "u@x.com" "upstox" "9876543210" "t0" "d0"]
            "u@x.com" "upstox" "9876543210" "t").operatorText := by decide

/-- C3 (amended): when no record matches `(email, app, mobile)`, the
resolve (`update_activation`) reports failure (`updated = false`) and the
ledger is unchanged, but `admin_approve` ignores that flag and renders the
usual approval text to the operator — the failure is not surfaced. -/
theorem C3_resolve_missing (store : List Activation)
    (email app mobile now : String)
    (h : ∀ act ∈ store, activation_matches email app mobile act = false) :
    admin_approve store email app mobile now
      = { store := store, updated := false,
          operatorText := approve_message email app mobile } := by
  unfold admin_approve update_activation
  rw [ual_no_match email app mobile "approved" "0" now store h]

/-- Witness for C3 at a concrete input. -/
theorem C3_resolve_missing_witness :
    admin_approve [] "u@x.com" "upstox" "9876543210" "t"
      = { store := [], updated := false,
          operatorText := approve_message "u@x.com" "upstox" "9876543210" } :=
  C3_resolve_missing [] "u@x.com" "upstox" "9876543210" "t" (by decide)

/-- C5: registering an email that already exists with a bound channel id
returns AlreadyExists and leaves the store unchanged; registering an email
that exists without a channel id, supplying one, returns ChannelIdUpdated
and sets only that record's channel id (password and name untouched); a
subsequent attempt then returns AlreadyExists. -/
theorem C5_register (pre : List User) (u : User) (post : List User)
    (email password name : String) (cid : Option Int) (now : String)
    (hu : str_lower u.email = str_lower email)
    (hpre : ∀ v ∈ pre, str_lower v.email ≠ str_lower email)
    (hpost : ∀ v ∈ post, str_lower v.email ≠ str_lower email) :
    (truthy_chat u.chat_id = true →
      add_user (pre ++ u :: post) email password name cid now
        = (pre ++ u :: post, false, "User already exists"))
    ∧ (truthy_chat u.chat_id = false → truthy_chat cid = true →
      add_user (pre ++ u :: post) email password name cid now
        = (pre ++ { u with chat_id := cid } :: post, true, "User chat_id updated"))
    ∧ (truthy_chat u.chat_id = false → truthy_chat cid = true →
      ∀ password2 name2 cid2 now2,
        add_user (pre ++ { u with chat_id := cid } :: post)
            email password2 name2 cid2 now2
          = (pre ++ { u with chat_id := cid } :: post, false,
              "User already exists")) := by
  have hmem : u ∈ pre ++ u :: post :=
    List.mem_append_right pre (List.mem_cons_self u post)
  have hany : (pre ++ u :: post).any
      (fun v => str_lower v.email == str_lower email) = true :=
    List.any_eq_true.mpr ⟨u, hmem, beq_iff_eq.mpr hu⟩
  refine ⟨?_, ?_, ?_⟩
  · intro hchat
    have hnone : add_user_update email cid (pre ++ u :: post) = none := by
      apply add_user_update_none
      intro v hv hveq
      rcases List.mem_append.mp hv with hvp | hvc
      · exact absurd hveq (hpre v hvp)
      · rcases List.mem_cons.mp hvc with rfl | hvpost
        · exact Or.inl hchat
        · exact absurd hveq (hpost v hvpost)
    simp [add_user, hany, hnone]
  · intro hchat hcid
    have hsome := add_user_update_some email cid pre u post hpre hu hchat hcid
    simp [add_user, hany, hsome]
  · intro hchat hcid password2 name2 cid2 now2
    have hmem2 : ({ u with chat_id := cid } : User) ∈
        pre ++ { u with chat_id := cid } :: post :=
      List.mem_append_right pre (List.mem_cons_self _ post)
    have hany2 : (pre ++ { u with chat_id := cid } :: post).any
        (fun v => str_lower v.email == str_lower email) = true :=
      List.any_eq_true.mpr ⟨{ u with chat_id := cid }, hmem2, beq_iff_eq.mpr hu⟩
    have hnone : add_user_update email cid2
        (pre ++ { u with chat_id := cid } :: post) = none := by
      apply add_user_update_none
      intro v hv hveq
      rcases List.mem_append.mp hv with hvp | hvc
      · exact absurd hveq (hpre v hvp)
      · rcases List.mem_cons.mp hvc with rfl | hvpost
        · exact Or.inl hcid
        · exact absurd hveq (hpost v hvpost)
    simp [add_user, hany2, hnone]

/-- Witness for C5 at the spec scenario: `x@y.com` registered without a
channel id, re-registered with channel id 5 (merge), then a third attempt
is rejected. -/
theorem C5_register_witness :
    add_user [{ email := "x@y.com", password := "pw", name := "Name",
                chat_id := none, created_at := "t0" }]
        "x@y.com" "pw2" "Name2" (some 5) "t1"
      = ([{ email := "x@y.com", password := "pw", name := "Name",
            chat_id := some 5, created_at := "t0" }], true, "User chat_id updated")
    ∧ add_user [{ email := "x@y.com", password := "pw", name := "Name",
                  chat_id := some 5, created_at := "t0" }]
        "x@y.com" "pw3" "Name3" (some 6) "t2"
      = ([{ email := "x@y.com", password := "pw", name := "Name",
            chat_id := some 5, created_at := "t0" }], false,
          "User already exists") := by
  have h := C5_register []
    { email := "x@y.com", password := "pw", name := "Name",
      chat_id := none, created_at := "t0" }
    [] "x@y.com" "pw2" "Name2" (some 5) "t1" (by decide) (by simp) (by simp)
  exact ⟨h.2.1 (by decide) (by decide),
    h.2.2 (by decide) (by decide) "pw3" "Name3" (some 6) "t2"⟩

/-- C6: with lowercase stored emails (the invariant `add_user` maintains)
and a unique candidate record, login succeeds exactly when the stored user
matches the entered email case-insensitively and the password exactly; on
success with no bound channel id the current chat identity is bound, and a
login with a channel id already bound leaves the store unchanged. -/
theorem C6_login (pre : List User) (u : User) (post : List User)
    (e password : String) (cid : Int)
    (hlow : ∀ v ∈ pre ++ u :: post, str_lower v.email = v.email)
    (hpre : ∀ v ∈ pre, str_lower v.email ≠ str_lower e)
    (hpost : ∀ v ∈ post, str_lower v.email ≠ str_lower e) :
    ((password_input (pre ++ u :: post) (str_lower e) password cid).1 = true
      ↔ str_lower u.email = str_lower e ∧ u.password = password)
    ∧ (str_lower u.email = str_lower e → u.password = password
        → truthy_chat u.chat_id = false
        → (password_input (pre ++ u :: post) (str_lower e) password cid).2
            = pre ++ { u with chat_id := some cid } :: post)
    ∧ (truthy_chat u.chat_id = true
        → (password_input (pre ++ u :: post) (str_lower e) password cid).2
            = pre ++ u :: post) := by
  have hlow_u : str_lower u.email = u.email :=
    hlow u (List.mem_append_right pre (List.mem_cons_self u post))
  by_cases hmatch : str_lower u.email = str_lower e
  · have hu_exact : u.email = str_lower e := hlow_u.symm.trans hmatch
    have hpost_exact : ∀ v ∈ post, v.email ≠ str_lower e := by
      intro v hv hveq
      have hl := hlow v (List.mem_append_right pre (List.mem_cons_of_mem u hv))
      exact hpost v hv (hl.trans hveq)
    have hpre_exact : ∀ v ∈ pre, v.email ≠ str_lower e := by
      intro v hv hveq
      have hl := hlow v (List.mem_append_left _ hv)
      exact hpre v hv (hl.trans hveq)
    have hlookup : read_emails_lookup (pre ++ u :: post) (str_lower e) = some u :=
      read_emails_lookup_decomp pre u post (str_lower e) hpost_exact hu_exact
    by_cases hpw : u.password = password
    · cases hchat : truthy_chat u.chat_id with
      | true =>
        refine ⟨?_, ?_, ?_⟩
        · simp [password_input, hlookup, hpw, hchat, hmatch]
        · intro _ _ hchat2
          exact absurd hchat2 (by decide)
        · intro _
          simp [password_input, hlookup, hpw, hchat]
      | false =>
        have hbind := bind_chat_id_first (str_lower e) cid pre u post
          hpre_exact hu_exact
        refine ⟨?_, ?_, ?_⟩
        · simp [password_input, hlookup, hpw, hchat, hmatch]
        · intro _ _ _
          simp [password_input, hlookup, hpw, hchat, hbind]
        · intro hc
          exact absurd hc (by decide)
    · refine ⟨?_, ?_, ?_⟩
      · simp [password_input, hlookup, hpw]
      · intro _ hpw2
        exact absurd hpw2 hpw
      · intro _
        simp [password_input, hlookup, hpw]
  · have hne_exact : ∀ v ∈ pre ++ u :: post, v.email ≠ str_lower e := by
      intro v hv hveq
      have hl := hlow v hv
      rcases List.mem_append.mp hv with hvp | hvc
      · exact hpre v hvp (hl.trans hveq)
      · rcases List.mem_cons.mp hvc with rfl | hvpost
        · exact hmatch (hl.trans hveq)
        · exact hpost v hvpost (hl.trans hveq)
    have hlookup := read_emails_lookup_none _ _ hne_exact
    refine ⟨?_, ?_, ?_⟩
    · simp [password_input, hlookup, hmatch]
    · intro hm
      exact absurd hm hmatch
    · intro _
      simp [password_input, hlookup]

/-- Witness for C6 at the spec scenario: `a@b.com`/`secret` registered
without a channel id; login entered as `A@B.com`/`secret` succeeds and
binds chat identity 42. -/
theorem C6_login_witness :
    (password_input [{ email := "a@b.com", password := "secret", name := "N",
                       chat_id := none, created_at := "t" }]
        (str_lower "A@B.com") "secret" 42).1 = true
    ∧ (password_input [{ email := "a@b.com", password := "secret", name := "N",
                         chat_id := none, created_at := "t" }]
        (str_lower "A@B.com") "secret" 42).2
      = [{ email := "a@b.com", password := "secret", name := "N",
           chat_id := some 42, created_at := "t" }] := by
  have h := C6_login []
    { email := "a@b.com", password := "secret", name := "N",
      chat_id := none, created_at := "t" }
    [] "A@B.com" "secret" 42 (by decide) (by simp) (by simp)
  exact ⟨h.1.mpr ⟨by decide, rfl⟩, h.2.1 (by decide) rfl (by decide)⟩

/-- C7: in the proof-submission state with an app selected, a missing,
empty, or non-ten-digit caption is rejected before any ledger operation:
the store is unchanged, the duplicate check never runs, and the next state
is still `ACTIVATION_PROOF`. -/
theorem C7_caption_validation (store : List Activation) (app : String)
    (media : MediaMsg) (caption : Option String) (email now subDate : String)
    (happ : app ≠ "")
    (hcap : caption = none ∨ caption = some ""
      ∨ ∃ c, caption = some c ∧ is_valid_mobile (py_strip c) = false) :
    (process_activation_proof store app media caption email now subDate).store
        = store
    ∧ (process_activation_proof store app media caption email now subDate).dupChecked
        = false
    ∧ (process_activation_proof store app media caption email now subDate).nextState
        = ACTIVATION_PROOF := by
  have happ2 : (app == "") = false := beq_eq_false_iff_ne.mpr happ
  cases hmedia : media_accepted app media with
  | false => simp [process_activation_proof, happ2, hmedia]
  | true =>
    rcases hcap with rfl | rfl | ⟨c, rfl, hc⟩
    · simp [process_activation_proof, happ2, hmedia]
    · simp [process_activation_proof, happ2, hmedia]
    · cases hce : (c == "") with
      | true => simp [process_activation_proof, happ2, hmedia, hce]
      | false => simp [process_activation_proof, happ2, hmedia, hce, hc]

/-- Witness for C7 at the spec scenario: the nine-digit caption
`987654321` is rejected with no ledger call and the state stays. -/
theorem C7_caption_validation_witness :
    (process_activation_proof [] "upstox" MediaMsg.video (some "987654321")
        "e@x.com" "t" "d").store = []
    ∧ (process_activation_proof [] "upstox" MediaMsg.video (some "987654321")
        "e@x.com" "t" "d").dupChecked = false
    ∧ (process_activation_proof [] "upstox" MediaMsg.video (some "987654321")
        "e@x.com" "t" "d").nextState = ACTIVATION_PROOF :=
  C7_caption_validation [] "upstox" MediaMsg.video (some "987654321")
    "e@x.com" "t" "d" (by decide)
    (Or.inr (Or.inr ⟨"987654321", rfl, by decide⟩))

/-- Rebuilding a string from its character data is the identity. -/
theorem str_mk_data (s : String) : (⟨s.data⟩ : String) = s := by
  obtain ⟨d⟩ := s
  rfl

theorem split_on_char_four (t a b c : String)
    (ht : ∀ x ∈ t.data, x ≠ '_') (ha : ∀ x ∈ a.data, x ≠ '_')
    (hb : ∀ x ∈ b.data, x ≠ '_') (hc : ∀ x ∈ c.data, x ≠ '_') :
    split_on_char '_' (t ++ "_" ++ a ++ "_" ++ b ++ "_" ++ c)
      = [t, a, b, c] := by
  unfold split_on_char
  have hdata : (t ++ "_" ++ a ++ "_" ++ b ++ "_" ++ c).data
      = t.data ++ '_' :: (a.data ++ '_' :: (b.data ++ '_' :: c.data)) := by
    simp [String.data_append]
  rw [hdata]
  rw [splitCharAux_append_sep '_' t.data _ [] ht]
  rw [splitCharAux_append_sep '_' a.data _ [] ha]
  rw [splitCharAux_append_sep '_' b.data _ [] hb]
  rw [splitCharAux_no_sep '_' c.data [] hc]
  simp [str_mk_data]

theorem split_on_char_five (t a b c d : String)
    (ht : ∀ x ∈ t.data, x ≠ '_') (ha : ∀ x ∈ a.data, x ≠ '_')
    (hb : ∀ x ∈ b.data, x ≠ '_') (hc : ∀ x ∈ c.data, x ≠ '_')
    (hd : ∀ x ∈ d.data, x ≠ '_') :
    split_on_char '_' (t ++ "_" ++ a ++ "_" ++ b ++ "_" ++ c ++ "_" ++ d)
      = [t, a, b, c, d] := by
  unfold split_on_char
  have hdata : (t ++ "_" ++ a ++ "_" ++ b ++ "_" ++ c ++ "_" ++ d).data
      = t.data ++ '_' :: (a.data ++ '_' :: (b.data ++ '_'
          :: (c.data ++ '_' :: d.data))) := by
    simp [String.data_append]
  rw [hdata]
  rw [splitCharAux_append_sep '_' t.data _ [] ht]
  rw [splitCharAux_append_sep '_' a.data _ [] ha]
  rw [splitCharAux_append_sep '_' b.data _ [] hb]
  rw [splitCharAux_append_sep '_' c.data _ [] hc]
  rw [splitCharAux_no_sep '_' d.data [] hd]
  simp [str_mk_data]

/-- C10 counterexample: the email `a_b@x.com` is accepted by the email
validator, yet the approve callback built from it does not parse back —
splitting on underscore yields five segments, the four-way unpacking in
`admin_approve` fails, and no decision is applied to the intended
activation. -/
theorem C10_counterexample :
    valid_email "a_b@x.com" = true
    ∧ parse_admin_callback
        (approve_callback_data "a_b@x.com" "angelone" "9876543210") = none := by
  decide

/-- C10 (amended): for every validator-accepted email, app and mobile that
contain no underscore, encoding the operator decision reference and
splitting it back on underscore recovers exactly the original components
for both the approve and the reason callbacks; emails containing an
underscore (which the validator accepts) break the approve unpacking. -/
theorem C10_callback_roundtrip (email app mobile reason_id : String)
    (_hv : valid_email email = true)
    (hemail : ∀ c ∈ email.data, c ≠ '_')
    (happ : ∀ c ∈ app.data, c ≠ '_')
    (hmobile : ∀ c ∈ mobile.data, c ≠ '_')
    (hreason : ∀ c ∈ reason_id.data, c ≠ '_') :
    parse_admin_callback (approve_callback_data email app mobile)
      = some (email, app, mobile)
    ∧ parse_reason_callback (reason_callback_data reason_id email app mobile)
      = some (reason_id, email, app, mobile) := by
  constructor
  · unfold parse_admin_callback approve_callback_data
    rw [split_on_char_four "approve" email app mobile (by decide)
      hemail happ hmobile]
  · unfold parse_reason_callback reason_callback_data
    rw [split_on_char_five "reason" reason_id email app mobile (by decide)
      hreason hemail happ hmobile]

/-- Witness for C10 at a concrete input without underscores. -/
theorem C10_callback_roundtrip_witness :
    parse_admin_callback (approve_callback_data "a@b.com" "angelone" "9876543210")
      = some ("a@b.com", "angelone", "9876543210")
    ∧ parse_reason_callback
        (reason_callback_data "nt" "a@b.com" "angelone" "9876543210")
      = some ("nt", "a@b.com", "angelone", "9876543210") :=
  C10_callback_roundtrip "a@b.com" "angelone" "9876543210" "nt"
    (by decide) (by decide) (by decide) (by decide) (by decide)

end EarnerBot
